/-
Verification of the patent annual-registration-fee PDF downloader.

The development shallowly embeds the pure computational core of the two
Python modules `patent_pdf_downloader.py` and `app.py`: identifier
normalization and classification, the `#@`-delimited record split/join,
the 47-slot parameter mapper, the endpoint selector, and the pure
decision logic of the download operations (index checks and submission
construction).  Network transport, regex scanning of fetched HTML, and
the HTML-to-PDF renderer are external collaborators; functions that
consume their results are embedded as functions of those results.

Python strings are modelled as Lean `String` (a wrapper around
`List Char`); Python library primitives (`str.replace`, `str.strip`,
`str.startswith`, slicing, `str.isdigit`, `int()`, list indexing with
negative indices) are embedded as the `py...` helpers below.
-/
import Mathlib

namespace PatentPdf

/-! ## Python string/list primitives used by the source -/

/-- Python `s.replace('-', '')`: removes every hyphen. -/
def pyReplaceDashEmpty (s : String) : String :=
  ⟨s.data.filter fun c => c ≠ '-'⟩

/-- Python `s.strip()`: drops leading and trailing whitespace. -/
def pyStrip (s : String) : String :=
  ⟨((s.data.dropWhile Char.isWhitespace).reverse.dropWhile Char.isWhitespace).reverse⟩

/-- Python `s.startswith(pre)`: the first `len(pre)` characters equal `pre`. -/
def pyStartswith (s pre : String) : Bool :=
  s.data.take pre.data.length == pre.data

/-- Python slicing `l[a:b]` (for `0 ≤ a ≤ b`). -/
def pySlice (l : List Char) (a b : Nat) : List Char :=
  (l.drop a).take (b - a)

/-- Python `s.isdigit()`: nonempty and all decimal digits (ASCII model). -/
def pyIsDigit (cs : List Char) : Bool :=
  !cs.isEmpty && cs.all Char.isDigit

/-- Python `int(s)` on a string of decimal digits. -/
def digitsToNat (cs : List Char) : Nat :=
  cs.foldl (fun n c => 10 * n + (c.toNat - 48)) 0

/-- Python list indexing `l[i]` with an `int` index: non-negative indices
count from the front, negative indices from the back; an out-of-range
access raises `IndexError`, modelled as `none`. -/
def pyListGet {α : Type} (l : List α) (i : Int) : Option α :=
  if 0 ≤ i then l[i.toNat]?
  else if i.natAbs ≤ l.length then l[l.length - i.natAbs]? else none

/-! ## The `#@` delimiter: Python `s.split('#@')` and `'#@'.join(vs)` -/

/-- Python `s.split('#@')` on character lists: scan left to right for the
two-character delimiter, cutting a new field at each occurrence. -/
def splitHashAt : List Char → List (List Char)
  | [] => [[]]
  | [c] => [[c]]
  | a :: b :: rest =>
    if a = '#' ∧ b = '@' then [] :: splitHashAt rest
    else
      match splitHashAt (b :: rest) with
      | [] => [[a]]
      | f :: fs => (a :: f) :: fs

/-- Python `'#@'.join(fields)` on character lists. -/
def joinHashAt : List (List Char) → List Char
  | [] => []
  | [f] => f
  | f :: fs => f ++ '#' :: '@' :: joinHashAt fs

/-- Python `s.split('#@')` on strings. -/
def pySplitHashAt (s : String) : List String :=
  (splitHashAt s.data).map String.mk

/-- Python `'#@'.join(values)` on strings. -/
def pyJoinHashAt (values : List String) : String :=
  ⟨joinHashAt (values.map String.data)⟩

/-! ## `patent_pdf_downloader.py`: identifier normalizer (lines 37-106) -/

/-- Source `normalize_rgst_no` (patent_pdf_downloader.py:37-55): strip
hyphens, then pad a 9-digit body with `"0000"` or a 10-digit body with
`"000"`. -/
def normalize_rgst_no (rgst_no : String) : String :=
  let normalized := pyReplaceDashEmpty rgst_no
  if normalized.data.length = 9 then normalized ++ "0000"
  else if normalized.data.length = 10 then normalized ++ "000"
  else normalized

/-- Source `normalize_appl_no` (patent_pdf_downloader.py:58-67): strip
hyphens only. -/
def normalize_appl_no (appl_no : String) : String :=
  pyReplaceDashEmpty appl_no

/-- Source `is_application_number` (patent_pdf_downloader.py:70-91):
after stripping hyphens, an identifier is an application number iff it
has at least 13 characters and characters `[2:6]` spell a year in
`[2000, 2099]`. -/
def is_application_number (number : String) : Bool :=
  let normalized := pyReplaceDashEmpty number
  if 13 ≤ normalized.data.length then
    let year_part := pySlice normalized.data 2 6
    if pyIsDigit year_part then
      let year := digitsToNat year_part
      decide (2000 ≤ year ∧ year ≤ 2099)
    else false
  else false

/-- Source `format_display_number` (patent_pdf_downloader.py:94-106):
`XX-YYYY-XXXXXXX` for application numbers, `XX-XXXXXXX` (dropping the
trailing four characters) for registration numbers. -/
def format_display_number (normalized : String) : String :=
  if is_application_number normalized then
    ⟨normalized.data.take 2⟩ ++ "-" ++ ⟨pySlice normalized.data 2 6⟩ ++ "-"
      ++ ⟨normalized.data.drop 6⟩
  else
    ⟨normalized.data.take 2⟩ ++ "-" ++ ⟨pySlice normalized.data 2 9⟩

/-! ## `patent_pdf_downloader.py`: positional data extractor (lines 213-279)

`parse_pdf_data` scans the fetched HTML with two regexes: an outer one
finding each `ls_arg[n] = '' (+ "#@" + '...')*` assignment block, and an
inner one collecting the chained quoted values of a block.  The regex
engine is an external collaborator; the extractor is embedded as a
function of the per-block value lists the inner regex yields. -/

/-- One iteration of the loop in `parse_pdf_data`
(patent_pdf_downloader.py:236-243): rebuild the delimiter-joined record
string `'' + '#@' + '#@'.join(values)` from one block's quoted values. -/
def parse_record_string (values : List String) : String :=
  "" ++ "#@" ++ pyJoinHashAt values

/-- Source `parse_pdf_data` (patent_pdf_downloader.py:213-245), as a
function of the quoted-value lists extracted per assignment block, in
order of occurrence. -/
def parse_pdf_data (matchValues : List (List String)) : List String :=
  matchValues.map parse_record_string

/-- Result of `parse_additional_params` (patent_pdf_downloader.py:248-279):
the three page-level override values, each defaulting to `""` when its
pattern is absent. -/
structure Overrides where
  arg44 : String
  arg45 : String
  arg46 : String
deriving DecidableEq

/-! ## Parameter mapper and endpoint selector -/

/-- The 47-slot named parameter set `arg1`..`arg47`. -/
structure Payload where
  arg1 : String
  arg2 : String
  arg3 : String
  arg4 : String
  arg5 : String
  arg6 : String
  arg7 : String
  arg8 : String
  arg9 : String
  arg10 : String
  arg11 : String
  arg12 : String
  arg13 : String
  arg14 : String
  arg15 : String
  arg16 : String
  arg17 : String
  arg18 : String
  arg19 : String
  arg20 : String
  arg21 : String
  arg22 : String
  arg23 : String
  arg24 : String
  arg25 : String
  arg26 : String
  arg27 : String
  arg28 : String
  arg29 : String
  arg30 : String
  arg31 : String
  arg32 : String
  arg33 : String
  arg34 : String
  arg35 : String
  arg36 : String
  arg37 : String
  arg38 : String
  arg39 : String
  arg40 : String
  arg41 : String
  arg42 : String
  arg43 : String
  arg44 : String
  arg45 : String
  arg46 : String
  arg47 : String
deriving DecidableEq

/-- Numeric access `argN p k = p.argk` for `1 ≤ k ≤ 47` (and `""` outside
that range), used to state positional properties of the mapper. -/
def Payload.argN (p : Payload) : Nat → String
  | 1 => p.arg1
  | 2 => p.arg2
  | 3 => p.arg3
  | 4 => p.arg4
  | 5 => p.arg5
  | 6 => p.arg6
  | 7 => p.arg7
  | 8 => p.arg8
  | 9 => p.arg9
  | 10 => p.arg10
  | 11 => p.arg11
  | 12 => p.arg12
  | 13 => p.arg13
  | 14 => p.arg14
  | 15 => p.arg15
  | 16 => p.arg16
  | 17 => p.arg17
  | 18 => p.arg18
  | 19 => p.arg19
  | 20 => p.arg20
  | 21 => p.arg21
  | 22 => p.arg22
  | 23 => p.arg23
  | 24 => p.arg24
  | 25 => p.arg25
  | 26 => p.arg26
  | 27 => p.arg27
  | 28 => p.arg28
  | 29 => p.arg29
  | 30 => p.arg30
  | 31 => p.arg31
  | 32 => p.arg32
  | 33 => p.arg33
  | 34 => p.arg34
  | 35 => p.arg35
  | 36 => p.arg36
  | 37 => p.arg37
  | 38 => p.arg38
  | 39 => p.arg39
  | 40 => p.arg40
  | 41 => p.arg41
  | 42 => p.arg42
  | 43 => p.arg43
  | 44 => p.arg44
  | 45 => p.arg45
  | 46 => p.arg46
  | 47 => p.arg47
  | _ => ""

/-- Source `build_payload` (app.py:382-432): each Python entry
`ls_arr[i] if len(ls_arr) > i else ''` is `ls_arr.getD i ""`; slots 44-46
come from the page-level overrides, and slot 47 copies field 44
(field 43 is skipped). -/
def build_payload (ls_arr : List String) (additional : Overrides) : Payload where
  arg1 := ls_arr.getD 0 ""
  arg2 := ls_arr.getD 1 ""
  arg3 := ls_arr.getD 2 ""
  arg4 := ls_arr.getD 3 ""
  arg5 := ls_arr.getD 4 ""
  arg6 := ls_arr.getD 5 ""
  arg7 := ls_arr.getD 6 ""
  arg8 := ls_arr.getD 7 ""
  arg9 := ls_arr.getD 8 ""
  arg10 := ls_arr.getD 9 ""
  arg11 := ls_arr.getD 10 ""
  arg12 := ls_arr.getD 11 ""
  arg13 := ls_arr.getD 12 ""
  arg14 := ls_arr.getD 13 ""
  arg15 := ls_arr.getD 14 ""
  arg16 := ls_arr.getD 15 ""
  arg17 := ls_arr.getD 16 ""
  arg18 := ls_arr.getD 17 ""
  arg19 := ls_arr.getD 18 ""
  arg20 := ls_arr.getD 19 ""
  arg21 := ls_arr.getD 20 ""
  arg22 := ls_arr.getD 21 ""
  arg23 := ls_arr.getD 22 ""
  arg24 := ls_arr.getD 23 ""
  arg25 := ls_arr.getD 24 ""
  arg26 := ls_arr.getD 25 ""
  arg27 := ls_arr.getD 26 ""
  arg28 := ls_arr.getD 27 ""
  arg29 := ls_arr.getD 28 ""
  arg30 := ls_arr.getD 29 ""
  arg31 := ls_arr.getD 30 ""
  arg32 := ls_arr.getD 31 ""
  arg33 := ls_arr.getD 32 ""
  arg34 := ls_arr.getD 33 ""
  arg35 := ls_arr.getD 34 ""
  arg36 := ls_arr.getD 35 ""
  arg37 := ls_arr.getD 36 ""
  arg38 := ls_arr.getD 37 ""
  arg39 := ls_arr.getD 38 ""
  arg40 := ls_arr.getD 39 ""
  arg41 := ls_arr.getD 40 ""
  arg42 := ls_arr.getD 41 ""
  arg43 := ls_arr.getD 42 ""
  arg44 := additional.arg44
  arg45 := additional.arg45
  arg46 := additional.arg46
  arg47 := ls_arr.getD 44 ""

/-- Source constant `PDF_DOWNLOAD_URL` (patent_pdf_downloader.py:33); the
same path literal is inlined at patent_pdf_downloader.py:418, app.py:185
and app.py:301. -/
def PDF_DOWNLOAD_URL : String :=
  "/smart/jsp/kiponet/ma/infomodifypatent/ReadAnnualRgstFeeRes2.do"

/-- Source constant `PDF_DOWNLOAD_URL_TRADEMARK`
(patent_pdf_downloader.py:34); inlined at patent_pdf_downloader.py:416,
app.py:183 and app.py:299. -/
def PDF_DOWNLOAD_URL_TRADEMARK : String :=
  "/smart/jsp/kiponet/ma/infomodifypatent/ReadAnnualRgstFeeRes4.do"

/-- Endpoint selection, textually identical at its three sites
(patent_pdf_downloader.py:413-418, app.py:181-185, app.py:297-301):
`rgst_no.startswith('4')` chooses the trademark path. -/
def select_url_path (rgst_no : String) : String :=
  if pyStartswith rgst_no "4" then PDF_DOWNLOAD_URL_TRADEMARK
  else PDF_DOWNLOAD_URL

/-- The form submission a download sends: chosen URL path plus the mapped
parameter set. -/
structure Submission where
  url_path : String
  payload : Payload
deriving DecidableEq

/-- Pure core of `download_annual_rgst_pdf`
(patent_pdf_downloader.py:282-430): split the record string on `#@`,
build the inline `arg1`..`arg47` payload (lines 363-411, field for field
the same mapping as `build_payload`), select the URL from `arg4`
(lines 413-418), and return the submission the POST would carry. -/
def download_annual_rgst_pdf_submission (original_data_string : String)
    (arg44 arg45 arg46 : String) : Submission :=
  let ls_arr := pySplitHashAt original_data_string
  let payload : Payload :=
    { arg1 := ls_arr.getD 0 ""
      arg2 := ls_arr.getD 1 ""
      arg3 := ls_arr.getD 2 ""
      arg4 := ls_arr.getD 3 ""
      arg5 := ls_arr.getD 4 ""
      arg6 := ls_arr.getD 5 ""
      arg7 := ls_arr.getD 6 ""
      arg8 := ls_arr.getD 7 ""
      arg9 := ls_arr.getD 8 ""
      arg10 := ls_arr.getD 9 ""
      arg11 := ls_arr.getD 10 ""
      arg12 := ls_arr.getD 11 ""
      arg13 := ls_arr.getD 12 ""
      arg14 := ls_arr.getD 13 ""
      arg15 := ls_arr.getD 14 ""
      arg16 := ls_arr.getD 15 ""
      arg17 := ls_arr.getD 16 ""
      arg18 := ls_arr.getD 17 ""
      arg19 := ls_arr.getD 18 ""
      arg20 := ls_arr.getD 19 ""
      arg21 := ls_arr.getD 20 ""
      arg22 := ls_arr.getD 21 ""
      arg23 := ls_arr.getD 22 ""
      arg24 := ls_arr.getD 23 ""
      arg25 := ls_arr.getD 24 ""
      arg26 := ls_arr.getD 25 ""
      arg27 := ls_arr.getD 26 ""
      arg28 := ls_arr.getD 27 ""
      arg29 := ls_arr.getD 28 ""
      arg30 := ls_arr.getD 29 ""
      arg31 := ls_arr.getD 30 ""
      arg32 := ls_arr.getD 31 ""
      arg33 := ls_arr.getD 32 ""
      arg34 := ls_arr.getD 33 ""
      arg35 := ls_arr.getD 34 ""
      arg36 := ls_arr.getD 35 ""
      arg37 := ls_arr.getD 36 ""
      arg38 := ls_arr.getD 37 ""
      arg39 := ls_arr.getD 38 ""
      arg40 := ls_arr.getD 39 ""
      arg41 := ls_arr.getD 40 ""
      arg42 := ls_arr.getD 41 ""
      arg43 := ls_arr.getD 42 ""
      arg44 := arg44
      arg45 := arg45
      arg46 := arg46
      arg47 := ls_arr.getD 44 "" }
  let rgst_no := payload.arg4
  ⟨select_url_path rgst_no, payload⟩

/-! ## Download pipeline cores (post-fetch decision logic) -/

/-- Observable outcome of a single download once the page has been
fetched and parsed: the early-error reports, an unhandled Python
`IndexError`, or the submission that gets POSTed. -/
inductive DownloadOutcome where
  | noData
  | indexOutOfRange
  | pyError
  | submit (s : Submission)
deriving DecidableEq

/-- Pure core of `download_by_rgst_no` (patent_pdf_downloader.py:450-530)
after the page fetch: report when no records were parsed (line 485),
report when `knx >= len(data_list)` (line 491), otherwise access
`data_list[knx]` (raising `IndexError` when out of range on the negative
side) and hand the record to `download_annual_rgst_pdf`. -/
def download_by_rgst_no_core (data_list : List String) (additional : Overrides)
    (knx : Int) : DownloadOutcome :=
  if data_list.isEmpty then .noData
  else if (data_list.length : Int) ≤ knx then .indexOutOfRange
  else
    match pyListGet data_list knx with
    | none => .pyError
    | some original_data_string =>
      .submit (download_annual_rgst_pdf_submission original_data_string
        additional.arg44 additional.arg45 additional.arg46)

/-- Pure core of the `/api/download` handler (app.py:165-195) after the
page fetch: the same no-data and `knx >= len(data_list)` checks
(app.py:168-172), then `data_list[knx]`, `build_payload`, and the
endpoint selection (app.py:175-187).  A negative out-of-range `knx`
raises `IndexError`, caught only by the handler's generic
`except Exception` reporter. -/
def download_pdf_core (data_list : List String) (additional : Overrides)
    (knx : Int) : DownloadOutcome :=
  if data_list.isEmpty then .noData
  else if (data_list.length : Int) ≤ knx then .indexOutOfRange
  else
    match pyListGet data_list knx with
    | none => .pyError
    | some original_data_string =>
      let ls_arr := pySplitHashAt original_data_string
      let payload := build_payload ls_arr additional
      let rgst_no_value := payload.arg4
      .submit ⟨select_url_path rgst_no_value, payload⟩

/-! ## Input validation prechecks (app.py handlers) -/

/-- Outcome of the identifier validation each single-identifier handler
performs before touching the network. -/
inductive PrecheckOutcome where
  | invalidInput
  | proceed (input_no : String)
deriving DecidableEq

/-- Validation step of `/api/check` (app.py:73-77):
`input_no = data.get('rgst_no', '').strip()`; an empty result is
rejected before the session is created. -/
def check_registration_precheck (rgst_no : String) : PrecheckOutcome :=
  let input_no := pyStrip rgst_no
  if input_no = "" then .invalidInput else .proceed input_no

/-- Validation step of `/api/download` (app.py:138-143), identical to the
one in `/api/check`. -/
def download_pdf_precheck (rgst_no : String) : PrecheckOutcome :=
  let input_no := pyStrip rgst_no
  if input_no = "" then .invalidInput else .proceed input_no

/-- Per-item outcome of the `/api/download-batch` loop entry. -/
inductive BatchItemOutcome where
  | skipped
  | proceed (input_no : String)
deriving DecidableEq

/-- Validation step for one item of `/api/download-batch`
(app.py:260-263): `input_no = str(input_no).strip() if input_no else ''`;
an empty result is skipped with `continue`, appending nothing to the
results list. -/
def download_batch_item_precheck (raw : String) : BatchItemOutcome :=
  let input_no := if raw = "" then "" else pyStrip raw
  if input_no = "" then .skipped else .proceed input_no

/-! ## Helper lemmas about the `#@` split and join -/

lemma splitHashAt_ne_nil (l : List Char) : splitHashAt l ≠ [] := by
  match l with
  | [] => simp [splitHashAt]
  | [c] => simp [splitHashAt]
  | a :: b :: rest =>
    simp only [splitHashAt]
    split
    · simp
    · split <;> simp

lemma joinHashAt_cons_cons (c : Char) (f : List Char) (fs : List (List Char)) :
    joinHashAt ((c :: f) :: fs) = c :: joinHashAt (f :: fs) := by
  cases fs <;> rfl

lemma splitHashAt_delim_cons (t : List Char) :
    splitHashAt ('#' :: '@' :: t) = [] :: splitHashAt t := by
  rw [splitHashAt, if_pos ⟨rfl, rfl⟩]

/-- Joining the fields of a split reproduces the original character list:
the split/join pair over the `#@` delimiter loses no information. -/
lemma joinHashAt_splitHashAt (l : List Char) : joinHashAt (splitHashAt l) = l := by
  induction l using splitHashAt.induct with
  | case1 => rfl
  | case2 c => rfl
  | case3 a b rest h ih =>
    obtain ⟨rfl, rfl⟩ := h
    rw [splitHashAt_delim_cons]
    cases hS : splitHashAt rest with
    | nil => exact absurd hS (splitHashAt_ne_nil rest)
    | cons f fs =>
      rw [hS] at ih
      calc joinHashAt ([] :: f :: fs) = '#' :: '@' :: joinHashAt (f :: fs) := rfl
        _ = '#' :: '@' :: rest := by rw [ih]
  | case4 a b rest h hS ih => exact absurd hS (splitHashAt_ne_nil _)
  | case5 a b rest h f fs hS ih =>
    have hsplit : splitHashAt (a :: b :: rest) = (a :: f) :: fs := by
      rw [splitHashAt, if_neg h, hS]
    rw [hsplit, joinHashAt_cons_cons, ← hS, ih]

/-- String-level version: `'#@'.join(s.split('#@')) == s`. -/
lemma pyJoinHashAt_pySplitHashAt (s : String) :
    pyJoinHashAt (pySplitHashAt s) = s := by
  show String.mk (joinHashAt (((splitHashAt s.data).map String.mk).map String.data)) = s
  rw [List.map_map]
  have : (String.data ∘ String.mk) = id := rfl
  rw [this, List.map_id, joinHashAt_splitHashAt]

/-! ## Claim theorems -/

/-- C1: the parameter mapper (`build_payload` in app.py, and the
identical inline payload in `download_annual_rgst_pdf`) is a pure,
deterministic function of the record field sequence and the three
override values (purity and determinism hold by construction: it is a
Lean function of exactly those arguments).  It returns exactly the 47
named values `arg1`..`arg47`: for every `i` in `0..42`, `arg(i+1)` is
`ls_arr[i]` when `i < len(ls_arr)` and `""` otherwise (that conditional
is `List.getD`); `arg44`..`arg46` are the three override values
regardless of record content; and `arg47` is `ls_arr[44]` when
`len(ls_arr) > 44` and `""` otherwise — field 43 is skipped and feeds no
slot.  The inline payload of `download_annual_rgst_pdf` agrees with
`build_payload` on every input. -/
theorem build_payload_positional_mapping (ls_arr : List String)
    (additional : Overrides) :
    (∀ i : Nat, i ≤ 42 →
      (build_payload ls_arr additional).argN (i + 1) = ls_arr.getD i "") ∧
    (build_payload ls_arr additional).argN 44 = additional.arg44 ∧
    (build_payload ls_arr additional).argN 45 = additional.arg45 ∧
    (build_payload ls_arr additional).argN 46 = additional.arg46 ∧
    (build_payload ls_arr additional).argN 47 = ls_arr.getD 44 "" ∧
    (∀ s a44 a45 a46 : String,
      (download_annual_rgst_pdf_submission s a44 a45 a46).payload
        = build_payload (pySplitHashAt s) ⟨a44, a45, a46⟩) := by
  refine ⟨?_, rfl, rfl, rfl, rfl, fun s a44 a45 a46 => rfl⟩
  intro i hi
  interval_cases i <;> rfl

/-- Witness for `build_payload_positional_mapping` at a concrete record:
slot `arg4` of a four-field record holds field 3. -/
theorem build_payload_positional_mapping_witness :
    3 ≤ 42 ∧
    (build_payload ["", "p1", "p2", "4023129070000"] ⟨"05", "t", ""⟩).argN 4
      = List.getD ["", "p1", "p2", "4023129070000"] 3 "" :=
  ⟨by decide,
    (build_payload_positional_mapping ["", "p1", "p2", "4023129070000"]
      ⟨"05", "t", ""⟩).1 3 (by decide)⟩

/-- C2: the endpoint selection (shared verbatim by
`download_annual_rgst_pdf`, `/api/download` and `/api/download-batch`)
chooses the alternate-category path `ReadAnnualRgstFeeRes4.do` iff
`arg4` is non-empty and its first character is `'4'`; in every other
case, including empty `arg4`, it chooses the default path
`ReadAnnualRgstFeeRes2.do`. -/
theorem select_url_path_spec (p : Payload) :
    (select_url_path p.arg4 = PDF_DOWNLOAD_URL_TRADEMARK ↔
      p.arg4 ≠ "" ∧ p.arg4.data.head? = some '4') ∧
    (p.arg4 = "" ∨ p.arg4.data.head? ≠ some '4' →
      select_url_path p.arg4 = PDF_DOWNLOAD_URL) := by
  have h4 : "4".data = ['4'] := rfl
  obtain ⟨l⟩ := p.arg4
  cases l with
  | nil =>
    refine ⟨⟨fun h => absurd h (by decide), fun h => absurd rfl h.1⟩,
      fun _ => by decide⟩
  | cons c t =>
    have hne : (⟨c :: t⟩ : String) ≠ "" := by
      intro h
      exact List.cons_ne_nil c t (congrArg String.data h)
    by_cases hc : c = '4'
    · subst hc
      have hsel : select_url_path ⟨'4' :: t⟩ = PDF_DOWNLOAD_URL_TRADEMARK := by
        simp [select_url_path, pyStartswith, h4]
      exact ⟨⟨fun _ => ⟨hne, rfl⟩, fun _ => hsel⟩,
        fun h => absurd rfl ((h.resolve_left (fun hh => hne hh)))⟩
    · have hsel : select_url_path ⟨c :: t⟩ = PDF_DOWNLOAD_URL := by
        simp [select_url_path, pyStartswith, h4, hc]
      refine ⟨⟨fun h => ?_, fun h => ?_⟩, fun _ => hsel⟩
      · rw [hsel] at h
        exact absurd h (by decide)
      · obtain ⟨-, hhead⟩ := h
        exact absurd (Option.some.inj hhead) hc

/-- Witness for `select_url_path_spec`: a payload whose `arg4` starts
with `'4'` goes to the alternate endpoint. -/
theorem select_url_path_spec_witness :
    select_url_path (build_payload ["", "a", "b", "4023129070000"]
        ⟨"", "", ""⟩).arg4 = PDF_DOWNLOAD_URL_TRADEMARK :=
  (select_url_path_spec
    (build_payload ["", "a", "b", "4023129070000"] ⟨"", "", ""⟩)).1.2
    ⟨by decide, by decide⟩

/-- C3: every string returned by `parse_pdf_data` begins with the
delimiter `#@` (so splitting it yields a leading empty field), and for
every record field sequence of at least 45 fields (every record field
sequence is the `#@`-split of its record string), rejoining the fields
with the delimiter and re-splitting reproduces the field sequence
exactly, leading empty field included. -/
theorem parse_pdf_data_delimiter_roundtrip :
    (∀ (matchValues : List (List String)) (r : String),
      r ∈ parse_pdf_data matchValues →
        pyStartswith r "#@" = true ∧ (pySplitHashAt r).head? = some "") ∧
    (∀ s : String, 45 ≤ (pySplitHashAt s).length →
      pySplitHashAt (pyJoinHashAt (pySplitHashAt s)) = pySplitHashAt s) := by
  constructor
  · intro matchValues r hr
    rw [parse_pdf_data, List.mem_map] at hr
    obtain ⟨vs, hvs, rfl⟩ := hr
    have hdata : (parse_record_string vs).data
        = '#' :: '@' :: (pyJoinHashAt vs).data := by
      show (("" ++ "#@") ++ pyJoinHashAt vs).data = _
      rw [String.data_append, String.data_append]
      rfl
    constructor
    · rw [pyStartswith, hdata]
      rfl
    · show ((splitHashAt (parse_record_string vs).data).map String.mk).head?
        = some ""
      rw [hdata, splitHashAt_delim_cons]
      rfl
  · intro s hs
    rw [pyJoinHashAt_pySplitHashAt]

/-- Witness for `parse_pdf_data_delimiter_roundtrip`: a one-record page
with value list `["ab"]`, and a 45-field record string. -/
theorem parse_pdf_data_delimiter_roundtrip_witness :
    (pyStartswith (parse_record_string ["ab"]) "#@" = true ∧
      (pySplitHashAt (parse_record_string ["ab"])).head? = some "") ∧
    pySplitHashAt (pyJoinHashAt (pySplitHashAt
        (pyJoinHashAt (List.replicate 45 ""))))
      = pySplitHashAt (pyJoinHashAt (List.replicate 45 "")) :=
  ⟨parse_pdf_data_delimiter_roundtrip.1 [["ab"]] (parse_record_string ["ab"])
      (by simp [parse_pdf_data]),
    parse_pdf_data_delimiter_roundtrip.2 (pyJoinHashAt (List.replicate 45 ""))
      (by decide)⟩

/-- C5: `is_application_number` returns `true` iff the hyphen-stripped
input has at least 13 characters, characters `[2:6]` are all digits, and
their value lies in `[2000, 2099]`; in particular it accepts
`"1020200012345"` and rejects `"1023129070000"`. -/
theorem is_application_number_spec :
    (∀ s : String,
      is_application_number s = true ↔
        13 ≤ (pyReplaceDashEmpty s).data.length ∧
        (pySlice (pyReplaceDashEmpty s).data 2 6).all Char.isDigit = true ∧
        2000 ≤ digitsToNat (pySlice (pyReplaceDashEmpty s).data 2 6) ∧
        digitsToNat (pySlice (pyReplaceDashEmpty s).data 2 6) ≤ 2099) ∧
    is_application_number "1020200012345" = true ∧
    is_application_number "1023129070000" = false := by
  refine ⟨?_, by decide, by decide⟩
  intro s
  rw [is_application_number]
  by_cases h13 : 13 ≤ (pyReplaceDashEmpty s).data.length
  · rw [if_pos h13]
    have hne : pySlice (pyReplaceDashEmpty s).data 2 6 ≠ [] := by
      have : (pySlice (pyReplaceDashEmpty s).data 2 6).length = 4 := by
        simp only [pySlice, List.length_take, List.length_drop]
        omega
      intro h
      rw [h] at this
      simp at this
    by_cases hd : (pySlice (pyReplaceDashEmpty s).data 2 6).all Char.isDigit
      = true
    · have hpd : pyIsDigit (pySlice (pyReplaceDashEmpty s).data 2 6) = true := by
        simp [pyIsDigit, hd, hne]
      rw [if_pos hpd, decide_eq_true_eq]
      constructor
      · rintro ⟨ha, hb⟩
        exact ⟨h13, hd, ha, hb⟩
      · rintro ⟨-, -, ha, hb⟩
        exact ⟨ha, hb⟩
    · have hpd : pyIsDigit (pySlice (pyReplaceDashEmpty s).data 2 6) = false := by
        simp only [pyIsDigit, Bool.and_eq_false_iff]
        right
        exact Bool.eq_false_iff.mpr fun h => hd h
      rw [if_neg (by simp [hpd])]
      constructor
      · intro h
        exact absurd h Bool.false_ne_true
      · rintro ⟨-, hall, -, -⟩
        exact absurd hall hd
  · rw [if_neg h13]
    constructor
    · intro h
      exact absurd h Bool.false_ne_true
    · rintro ⟨h, -⟩
      exact absurd h h13

/-- C6: `normalize_rgst_no` strips hyphens, appends `"0000"` to a
9-character result, `"000"` to a 10-character result, and returns any
other length unchanged; in particular `"10-2312907"` becomes
`"1023129070000"`. -/
theorem normalize_rgst_no_spec :
    (∀ s : String,
      ((pyReplaceDashEmpty s).data.length = 9 →
        normalize_rgst_no s = pyReplaceDashEmpty s ++ "0000") ∧
      ((pyReplaceDashEmpty s).data.length = 10 →
        normalize_rgst_no s = pyReplaceDashEmpty s ++ "000") ∧
      ((pyReplaceDashEmpty s).data.length ≠ 9 →
        (pyReplaceDashEmpty s).data.length ≠ 10 →
        normalize_rgst_no s = pyReplaceDashEmpty s)) ∧
    normalize_rgst_no "10-2312907" = "1023129070000" := by
  refine ⟨?_, by decide⟩
  intro s
  refine ⟨fun h9 => ?_, fun h10 => ?_, fun h9 h10 => ?_⟩
  · rw [normalize_rgst_no, if_pos h9]
  · rw [normalize_rgst_no, if_neg (by omega), if_pos h10]
  · rw [normalize_rgst_no, if_neg h9, if_neg h10]

/-- Witness for `normalize_rgst_no_spec`: the 9-digit stripped form of
`"10-2312907"` gains the `"0000"` suffix. -/
theorem normalize_rgst_no_spec_witness :
    (pyReplaceDashEmpty "10-2312907").data.length = 9 ∧
    normalize_rgst_no "10-2312907" = pyReplaceDashEmpty "10-2312907" ++ "0000" :=
  ⟨by decide, (normalize_rgst_no_spec.1 "10-2312907").1 (by decide)⟩

/-- C7: `format_display_number` renders the family-conditional display
form — `XX-YYYY-XXXXXXX` (cuts after characters 2, 6) for application
numbers, `XX-XXXXXXX` (cut after character 2, truncated at 9) for
registration numbers; in particular `"1023129070000"` renders as
`"10-2312907"` and `"1020200012345"` as `"10-2020-0012345"`. -/
theorem format_display_number_spec :
    (∀ s : String,
      (is_application_number s = true →
        format_display_number s =
          ⟨s.data.take 2⟩ ++ "-" ++ ⟨pySlice s.data 2 6⟩ ++ "-"
            ++ ⟨s.data.drop 6⟩) ∧
      (is_application_number s = false →
        format_display_number s =
          ⟨s.data.take 2⟩ ++ "-" ++ ⟨pySlice s.data 2 9⟩)) ∧
    format_display_number "1023129070000" = "10-2312907" ∧
    format_display_number "1020200012345" = "10-2020-0012345" := by
  refine ⟨?_, by decide, by decide⟩
  intro s
  constructor
  · intro h
    rw [format_display_number, if_pos h]
  · intro h
    rw [format_display_number, if_neg (by simp [h])]

/-- Witness for `format_display_number_spec`: the application-number
branch at `"1020200012345"`. -/
theorem format_display_number_spec_witness :
    is_application_number "1020200012345" = true ∧
    format_display_number "1020200012345" =
      ⟨"1020200012345".data.take 2⟩ ++ "-"
        ++ ⟨pySlice "1020200012345".data 2 6⟩ ++ "-"
        ++ ⟨"1020200012345".data.drop 6⟩ :=
  ⟨by decide, (format_display_number_spec.1 "1020200012345").1 (by decide)⟩

/-- C4 counterexample: a record with fewer than 4 fields (`"#@"` splits
into the 2-field sequence `["", ""]`) is not treated as invalid: both
download cores map it into a full 47-slot parameter set (every slot
empty) and build a submission for the default endpoint. -/
theorem short_record_mapped_counterexample :
    (pySplitHashAt "#@").length < 4 ∧
    download_pdf_core ["#@"] ⟨"", "", ""⟩ 0 =
      .submit ⟨PDF_DOWNLOAD_URL,
        ⟨"", "", "", "", "", "", "", "", "", "", "", "", "", "", "", "",
          "", "", "", "", "", "", "", "", "", "", "", "", "", "", "", "",
          "", "", "", "", "", "", "", "", "", "", "", "", "", "", ""⟩⟩ ∧
    download_by_rgst_no_core ["#@"] ⟨"", "", ""⟩ 0 =
      .submit ⟨PDF_DOWNLOAD_URL,
        ⟨"", "", "", "", "", "", "", "", "", "", "", "", "", "", "", "",
          "", "", "", "", "", "", "", "", "", "", "", "", "", "", "", "",
          "", "", "", "", "", "", "", "", "", "", "", "", "", "", ""⟩⟩ := by
  decide

/-- C4 amended: a record with fewer than 4 fields is not rejected — the
mapper still builds a parameter set from it, with `arg4` (like every
other missing field) defaulting to the empty string, so the submission
always uses the default endpoint. -/
theorem short_record_mapped (ls_arr : List String) (additional : Overrides)
    (h : ls_arr.length < 4) :
    (build_payload ls_arr additional).arg4 = "" ∧
    select_url_path (build_payload ls_arr additional).arg4
      = PDF_DOWNLOAD_URL := by
  have h4 : (build_payload ls_arr additional).arg4 = "" := by
    show ls_arr.getD 3 "" = ""
    rw [List.getD_eq_getElem?_getD, List.getElem?_eq_none (by omega)]
    rfl
  refine ⟨h4, ?_⟩
  rw [h4]
  decide

/-- Witness for `short_record_mapped` at the 2-field record. -/
theorem short_record_mapped_witness :
    (["", ""] : List String).length < 4 ∧
    select_url_path (build_payload ["", ""] ⟨"", "", ""⟩).arg4
      = PDF_DOWNLOAD_URL :=
  ⟨by decide, (short_record_mapped ["", ""] ⟨"", "", ""⟩ (by decide)).2⟩

/-- C8 counterexample: with one extracted record, the requested index
`-2` refers to no record, yet neither download operation reports the
index-out-of-range failure — the `knx >= len(data_list)` guard passes
and the record access raises an unhandled `IndexError` instead. -/
theorem negative_index_error_counterexample :
    download_pdf_core ["#@"] ⟨"", "", ""⟩ (-2) = .pyError ∧
    download_by_rgst_no_core ["#@"] ⟨"", "", ""⟩ (-2) = .pyError ∧
    DownloadOutcome.pyError ≠ DownloadOutcome.indexOutOfRange := by
  decide

/-- C8 amended: for every requested index `knx ≥ len(data_list)` the
single-download operations report the index-out-of-range failure before
any further processing; an index below `-len(data_list)` also refers to
no record but escapes that guard, and the subsequent `data_list[knx]`
access raises an index error instead (no parameter set is built and no
submission is sent in either case). -/
theorem index_out_of_range_report (data_list : List String)
    (additional : Overrides) (knx : Int) (h : data_list ≠ []) :
    ((data_list.length : Int) ≤ knx →
      download_by_rgst_no_core data_list additional knx = .indexOutOfRange ∧
      download_pdf_core data_list additional knx = .indexOutOfRange) ∧
    (knx < -(data_list.length : Int) →
      download_by_rgst_no_core data_list additional knx = .pyError ∧
      download_pdf_core data_list additional knx = .pyError) := by
  have hEmpty : ¬(data_list.isEmpty = true) := by simp [h]
  have hpos : 1 ≤ data_list.length := List.length_pos.mpr h
  constructor
  · intro hk
    constructor
    · rw [download_by_rgst_no_core, if_neg hEmpty, if_pos hk]
    · rw [download_pdf_core, if_neg hEmpty, if_pos hk]
  · intro hk
    have hk2 : ¬((data_list.length : Int) ≤ knx) := by omega
    have hget : pyListGet data_list knx = none := by
      rw [pyListGet, if_neg (by omega), if_neg (by omega)]
    constructor
    · rw [download_by_rgst_no_core, if_neg hEmpty, if_neg hk2, hget]
    · rw [download_pdf_core, if_neg hEmpty, if_neg hk2, hget]

/-- Witness for `index_out_of_range_report`: a one-record list with
requested index 5 is reported out of range. -/
theorem index_out_of_range_report_witness :
    (["#@"] : List String) ≠ [] ∧
    download_pdf_core ["#@"] ⟨"", "", ""⟩ 5 = .indexOutOfRange :=
  ⟨by decide,
    ((index_out_of_range_report ["#@"] ⟨"", "", ""⟩ 5 (by decide)).1
      (by decide)).2⟩

/-- C9 counterexample: an all-whitespace item of `/api/download-batch`
is silently skipped (`continue` appends nothing to the results list), so
no invalid-input failure is reported for it, while `/api/check` does
report one for the same input. -/
theorem batch_empty_item_skipped_counterexample :
    download_batch_item_precheck " " = .skipped ∧
    download_batch_item_precheck "" = .skipped ∧
    check_registration_precheck " " = .invalidInput := by
  decide

/-- C9 amended: for every empty or whitespace-only identifier input,
`/api/check` and `/api/download` report the invalid-input failure
immediately, before any network call; `/api/download-batch` attempts no
network call for such an item either, but silently skips it without
recording a failure. -/
theorem empty_identifier_handling (s : String)
    (h : ∀ c ∈ s.data, c.isWhitespace = true) :
    check_registration_precheck s = .invalidInput ∧
    download_pdf_precheck s = .invalidInput ∧
    download_batch_item_precheck s = .skipped := by
  have hstrip : pyStrip s = "" := by
    have hd : s.data.dropWhile Char.isWhitespace = [] :=
      List.dropWhile_eq_nil_iff.mpr h
    have he : pyStrip s =
        ⟨((s.data.dropWhile Char.isWhitespace).reverse.dropWhile
          Char.isWhitespace).reverse⟩ := rfl
    rw [he, hd]
    rfl
  refine ⟨?_, ?_, ?_⟩
  · simp [check_registration_precheck, hstrip]
  · simp [download_pdf_precheck, hstrip]
  · simp [download_batch_item_precheck, hstrip]

/-- Witness for `empty_identifier_handling` at a two-space input. -/
theorem empty_identifier_handling_witness :
    (∀ c ∈ ("  " : String).data, c.isWhitespace = true) ∧
    download_batch_item_precheck "  " = .skipped :=
  ⟨by decide, (empty_identifier_handling "  " (by decide)).2.2⟩

/-- C10: a negative requested index `knx` with `-n ≤ knx ≤ -1` passes
the `knx >= len(data_list)` guard of both single-download operations
without any error report, and the record at position `n + knx` (written
`n - |knx|`) is the one selected and processed into the submission. -/
theorem negative_index_accepted (data_list : List String)
    (additional : Overrides) (knx : Int)
    (h1 : 1 ≤ data_list.length)
    (h2 : -(data_list.length : Int) ≤ knx) (h3 : knx ≤ -1) :
    download_by_rgst_no_core data_list additional knx ≠ .indexOutOfRange ∧
    download_by_rgst_no_core data_list additional knx =
      .submit (download_annual_rgst_pdf_submission
        (data_list.getD (data_list.length - knx.natAbs) "")
        additional.arg44 additional.arg45 additional.arg46) ∧
    download_pdf_core data_list additional knx =
      .submit ⟨select_url_path (build_payload
          (pySplitHashAt (data_list.getD (data_list.length - knx.natAbs) ""))
          additional).arg4,
        build_payload
          (pySplitHashAt (data_list.getD (data_list.length - knx.natAbs) ""))
          additional⟩ := by
  have hne : data_list ≠ [] := by
    intro hcon
    rw [hcon] at h1
    simp at h1
  have hEmpty : ¬(data_list.isEmpty = true) := by simp [hne]
  have hk2 : ¬((data_list.length : Int) ≤ knx) := by omega
  have hidx : data_list.length - knx.natAbs < data_list.length := by omega
  have hget : pyListGet data_list knx =
      some (data_list.getD (data_list.length - knx.natAbs) "") := by
    rw [pyListGet, if_neg (by omega), if_pos (by omega),
      List.getElem?_eq_getElem hidx, List.getD_eq_getElem?_getD,
      List.getElem?_eq_getElem hidx]
    rfl
  refine ⟨?_, ?_, ?_⟩
  · rw [download_by_rgst_no_core, if_neg hEmpty, if_neg hk2, hget]
    intro hcon
    exact DownloadOutcome.noConfusion hcon
  · rw [download_by_rgst_no_core, if_neg hEmpty, if_neg hk2, hget]
  · rw [download_pdf_core, if_neg hEmpty, if_neg hk2, hget]

/-- Witness for `negative_index_accepted`: index `-1` on a one-record
list selects record 0. -/
theorem negative_index_accepted_witness :
    download_by_rgst_no_core ["#@r"] ⟨"", "", ""⟩ (-1) =
      .submit (download_annual_rgst_pdf_submission
        (List.getD ["#@r"] (List.length ["#@r"] - Int.natAbs (-1)) "")
        "" "" "") :=
  (negative_index_accepted ["#@r"] ⟨"", "", ""⟩ (-1) (by decide) (by decide)
    (by decide)).2.1

end PatentPdf
